import Mathlib

/-!
Shallow embedding of the dragonchain-inc/dragonchain-sdk-python
request-authentication and credential-resolution core, together with proofs
about it.

Sources embedded:
  * src/dc_sdk/lib/auth.py        (free-function auth: hashes, HMAC, header)
  * src/dragonchain_sdk/credentials.py  (Credentials object)
  * src/dragonchain_sdk/configuration.py (multi-source credential resolution)
  * src/dc_sdk/lib/request.py     (make_headers, reserved_headers)

Conventions of the embedding:
  * Python `bytes` are `List Nat` (each element intended < 256; the claims
    carry this as an explicit validity hypothesis where it matters).
  * Python values that may be `str` or `bytes` are `PyData`.
  * Raised exceptions are the `Except.error` side of `Except PyError _`.
  * `hashlib.sha256`, `hashlib.blake2b` and `hashlib.sha3_256` are
    implemented bit-for-bit (they are external primitives of the Python
    standard library; the test fixtures of the repository pin their exact
    values, so they are embedded concretely).
  * Lean `String` cannot hold lone surrogates, hence the
    "string not utf-8 encodable" ValueError branch of `bytes_from_input`
    is dead in the model (every model string is encodable).
-/

set_option maxRecDepth 10000

/-- Errors of the Python code, by exception class. -/
inductive PyError where
  | typeError (msg : String)
  | valueError (msg : String)
  | notImplementedError (msg : String)
  | dragonchainIdentityNotFound (msg : String)
  | authorizationNotFound (msg : String)
  | binasciiError (msg : String)
  deriving DecidableEq, Repr

/-- An argument that Python types as "str or bytes". -/
inductive PyData where
  | pystr (s : String)
  | pybytes (b : List Nat)
  deriving DecidableEq, Repr

/-- An arbitrary Python object handed to an `isinstance(_, str)` check:
either a string or some non-string object. -/
inductive PyObj where
  | str (s : String)
  | other
  deriving DecidableEq, Repr

/-- Decidable equality for `Except` results, to evaluate claims on
concrete inputs. -/
instance instDecEqExcept {ε α : Type} [DecidableEq ε] [DecidableEq α] :
    DecidableEq (Except ε α) := fun x y =>
  match x, y with
  | .ok a, .ok b =>
    if h : a = b then .isTrue (congrArg Except.ok h)
    else .isFalse (fun hc => h (Except.ok.inj hc))
  | .error a, .error b =>
    if h : a = b then .isTrue (congrArg Except.error h)
    else .isFalse (fun hc => h (Except.error.inj hc))
  | .ok _, .error _ => .isFalse (fun hc => Except.noConfusion hc)
  | .error _, .ok _ => .isFalse (fun hc => Except.noConfusion hc)

/-- Bytes of a `PyData` (UTF-8 for strings; identity for bytes).
Embeds `bytes_from_input` of src/dc_sdk/lib/auth.py (and the identical
`Credentials.bytes_from_input`); the non-encodable-string ValueError branch
is unrepresentable here, and the wrong-type branch is excluded by typing. -/
def bytes_from_input : PyData → List Nat
  | .pystr s => s.toUTF8.data.toList.map UInt8.toNat
  | .pybytes b => b

/-- All bytes of a `PyData` are below 256 (true for every real Python
`str`; for `bytes` it is a typing fact of Python carried as a predicate). -/
def PyData.Valid : PyData → Prop
  | .pystr _ => True
  | .pybytes b => ∀ x ∈ b, x < 256

instance : DecidablePred PyData.Valid := fun d => by
  cases d with
  | pystr s => exact .isTrue trivial
  | pybytes b => exact List.decidableBAll _ b

/-! ## Base64 (Python `base64.b64encode` / `b64decode`) -/

/-- Base64 alphabet characters in order. -/
def b64Alphabet : List Char :=
  "ABCDEFGHIJKLMNOPQRSTUVWXYZabcdefghijklmnopqrstuvwxyz0123456789+/".data

/-- Character for a sextet value. -/
def b64Char (n : Nat) : Char := b64Alphabet.getD n '?'

/-- Sextet value of an alphabet character, `none` for non-alphabet input. -/
def b64CharVal (c : Char) : Option Nat := b64Alphabet.indexOf? c

/-- Standard base64 encoding of a byte list, as characters (with `=` pad). -/
def b64encBytes : List Nat → List Char
  | [] => []
  | [a] => [b64Char (a / 4), b64Char (a % 4 * 16), '=', '=']
  | [a, b] => [b64Char (a / 4), b64Char (a % 4 * 16 + b / 16), b64Char (b % 16 * 4), '=']
  | a :: b :: c :: rest =>
      b64Char (a / 4) :: b64Char (a % 4 * 16 + b / 16) ::
      b64Char (b % 16 * 4 + c / 64) :: b64Char (c % 64) :: b64encBytes rest

/-- Embeds `bytes_to_b64_str` of src/dc_sdk/lib/auth.py (and the identical
`Credentials.bytes_to_b64_str`): base64-encode bytes and decode as text.
The "not bytes" ValueError branch is excluded by typing. -/
def bytes_to_b64_str (unencoded_bytes : List Nat) : String :=
  ⟨b64encBytes unencoded_bytes⟩

/-- Decode a list of sextets back to bytes (tail of 1 sextet is invalid). -/
def b64decSextets : List Nat → Option (List Nat)
  | [] => some []
  | [_] => none
  | [a, b] => some [a * 4 + b / 16]
  | [a, b, c] => some [a * 4 + b / 16, b % 16 * 16 + c / 4]
  | a :: b :: c :: d :: rest =>
      (b64decSextets rest).map
        (fun r => (a * 4 + b / 16) :: (b % 16 * 16 + c / 4) :: (c % 4 * 64 + d) :: r)

/-- Embeds Python `base64.b64decode` (as used by `compare_hmac`): characters
outside the alphabet, and padding, are discarded; a leftover single sextet
is a `binascii.Error`, modelled as `none`. -/
def b64decode (s : String) : Option (List Nat) :=
  b64decSextets (s.data.filterMap b64CharVal)

/-! ## SHA-256 (Python `hashlib.sha256`) -/

/-- Truncation to 32 bits. -/
def u32 (n : Nat) : Nat := n % 4294967296

/-- Right rotation of a 32-bit word. -/
def rotr32 (r x : Nat) : Nat := u32 ((x >>> r) ||| (x <<< (32 - r)))

/-- SHA-256 round constants. -/
def sha256K : List Nat :=
  [1116352408, 1899447441, 3049323471, 3921009573, 961987163, 1508970993,
   2453635748, 2870763221, 3624381080, 310598401, 607225278, 1426881987,
   1925078388, 2162078206, 2614888103, 3248222580, 3835390401, 4022224774,
   264347078, 604807628, 770255983, 1249150122, 1555081692, 1996064986,
   2554220882, 2821834349, 2952996808, 3210313671, 3336571891, 3584528711,
   113926993, 338241895, 666307205, 773529912, 1294757372, 1396182291,
   1695183700, 1986661051, 2177026350, 2456956037, 2730485921, 2820302411,
   3259730800, 3345764771, 3516065817, 3600352804, 4094571909, 275423344,
   430227734, 506948616, 659060556, 883997877, 958139571, 1322822218,
   1537002063, 1747873779, 1955562222, 2024104815, 2227730452, 2361852424,
   2428436474, 2756734187, 3204031479, 3329325298]

/-- SHA-256 initial hash state. -/
def sha256IV : List Nat :=
  [1779033703, 3144134277, 1013904242, 2773480762,
   1359893119, 2600822924, 528734635, 1541459225]

/-- Big-endian bytes of a 64-bit length field. -/
def be64 (n : Nat) : List Nat :=
  [(n >>> 56) % 256, (n >>> 48) % 256, (n >>> 40) % 256, (n >>> 32) % 256,
   (n >>> 24) % 256, (n >>> 16) % 256, (n >>> 8) % 256, n % 256]

/-- Big-endian bytes of a 32-bit word. -/
def be32 (n : Nat) : List Nat :=
  [(n >>> 24) % 256, (n >>> 16) % 256, (n >>> 8) % 256, n % 256]

/-- Split a list into chunks of `n` (fuel-driven, total). -/
def chunkGo (n : Nat) : Nat → List α → List (List α)
  | 0, _ => []
  | _, [] => []
  | fuel + 1, l => l.take n :: chunkGo n fuel (l.drop n)

/-- Split a list into chunks of `n` elements. -/
def chunkList (n : Nat) (l : List α) : List (List α) := chunkGo n l.length l

/-- Big-endian 32-bit words of a byte list. -/
def bytesToWordsBE (l : List Nat) : List Nat :=
  (chunkList 4 l).map (fun c => c.foldl (fun acc b => acc * 256 + b) 0)

/-- Message-schedule extension step: `w` extended by one word. -/
def sha256ExtendOnce (w : List Nat) : List Nat :=
  let n := w.length
  let w15 := w.getD (n - 15) 0
  let w2 := w.getD (n - 2) 0
  let s0 := rotr32 7 w15 ^^^ rotr32 18 w15 ^^^ (w15 >>> 3)
  let s1 := rotr32 17 w2 ^^^ rotr32 19 w2 ^^^ (w2 >>> 10)
  w ++ [u32 (w.getD (n - 16) 0 + s0 + w.getD (n - 7) 0 + s1)]

/-- Extend the 16 words of a block to the 64-word schedule. -/
def sha256Schedule (w : List Nat) : List Nat :=
  Nat.rec w (fun _ acc => sha256ExtendOnce acc) 48

/-- One SHA-256 compression round on state `[a,b,c,d,e,f,g,h]`. -/
def sha256Round (s : List Nat) (k w : Nat) : List Nat :=
  match s with
  | [a, b, c, d, e, f, g, h] =>
    let S1 := rotr32 6 e ^^^ rotr32 11 e ^^^ rotr32 25 e
    let ch := (e &&& f) ^^^ ((e ^^^ 0xffffffff) &&& g)
    let t1 := u32 (h + S1 + ch + k + w)
    let S0 := rotr32 2 a ^^^ rotr32 13 a ^^^ rotr32 22 a
    let maj := (a &&& b) ^^^ (a &&& c) ^^^ (b &&& c)
    let t2 := u32 (S0 + maj)
    [u32 (t1 + t2), a, b, c, u32 (d + t1), e, f, g]
  | s => s

/-- SHA-256 compression of one 64-byte block into the hash state. -/
def sha256Compress (h : List Nat) (block : List Nat) : List Nat :=
  let w := sha256Schedule (bytesToWordsBE block)
  let s := (sha256K.zip w).foldl (fun s kw => sha256Round s kw.1 kw.2) h
  (h.zip s).map (fun p => u32 (p.1 + p.2))

/-- SHA-256 digest (32 bytes) of a byte message. -/
def sha256 (msg : List Nat) : List Nat :=
  let padded := msg ++ 0x80 :: List.replicate ((119 - msg.length % 64) % 64) 0
                    ++ be64 (8 * msg.length)
  ((chunkList 64 padded).foldl sha256Compress sha256IV).flatMap be32

/-! ## BLAKE2b (Python `hashlib.blake2b`, unkeyed, 64-byte digest) -/

/-- Truncation to 64 bits. -/
def u64 (n : Nat) : Nat := n % 18446744073709551616

/-- Right rotation of a 64-bit word. -/
def rotr64 (r x : Nat) : Nat := u64 ((x >>> r) ||| (x <<< (64 - r)))

/-- BLAKE2b initialisation vector. -/
def blakeIV : List Nat :=
  [7640891576956012808, 13503953896175478587, 4354685564936845355, 11912009170470909681,
   5840696475078001361, 11170449401992604703, 2270897969802886507, 6620516959819538809]

/-- BLAKE2 message permutation table. -/
def blakeSigma : List (List Nat) :=
  [[0, 1, 2, 3, 4, 5, 6, 7, 8, 9, 10, 11, 12, 13, 14, 15],
   [14, 10, 4, 8, 9, 15, 13, 6, 1, 12, 0, 2, 11, 7, 5, 3],
   [11, 8, 12, 0, 5, 2, 15, 13, 10, 14, 3, 6, 7, 1, 9, 4],
   [7, 9, 3, 1, 13, 12, 11, 14, 2, 6, 5, 10, 4, 0, 15, 8],
   [9, 0, 5, 7, 2, 4, 10, 15, 14, 1, 11, 12, 6, 8, 3, 13],
   [2, 12, 6, 10, 0, 11, 8, 3, 4, 13, 7, 5, 15, 14, 1, 9],
   [12, 5, 1, 15, 14, 13, 4, 10, 0, 7, 6, 3, 9, 2, 8, 11],
   [13, 11, 7, 14, 12, 1, 3, 9, 5, 0, 15, 4, 8, 6, 2, 10],
   [6, 15, 14, 9, 11, 3, 0, 8, 12, 2, 13, 7, 1, 4, 10, 5],
   [10, 2, 8, 4, 7, 6, 1, 5, 15, 11, 9, 14, 3, 12, 13, 0]]

/-- Little-endian bytes of a 64-bit word. -/
def le64 (n : Nat) : List Nat :=
  [n % 256, (n >>> 8) % 256, (n >>> 16) % 256, (n >>> 24) % 256,
   (n >>> 32) % 256, (n >>> 40) % 256, (n >>> 48) % 256, (n >>> 56) % 256]

/-- Little-endian 64-bit words of a byte list. -/
def bytesToWordsLE (l : List Nat) : List Nat :=
  (chunkList 8 l).map (fun c => c.foldr (fun b acc => acc * 256 + b) 0)

/-- BLAKE2b mixing function G on the 16-word working vector. -/
def blakeG (v : List Nat) (a b c d x y : Nat) : List Nat :=
  let va := u64 (v.getD a 0 + v.getD b 0 + x)
  let vd := rotr64 32 (v.getD d 0 ^^^ va)
  let vc := u64 (v.getD c 0 + vd)
  let vb := rotr64 24 (v.getD b 0 ^^^ vc)
  let va2 := u64 (va + vb + y)
  let vd2 := rotr64 16 (vd ^^^ va2)
  let vc2 := u64 (vc + vd2)
  let vb2 := rotr64 63 (vb ^^^ vc2)
  (((v.set a va2).set b vb2).set c vc2).set d vd2

/-- One BLAKE2b round with message words `m`. -/
def blakeRound (m : List Nat) (v : List Nat) (r : Nat) : List Nat :=
  let s := blakeSigma.getD (r % 10) []
  let mi := fun i => m.getD (s.getD i 0) 0
  let v := blakeG v 0 4 8 12 (mi 0) (mi 1)
  let v := blakeG v 1 5 9 13 (mi 2) (mi 3)
  let v := blakeG v 2 6 10 14 (mi 4) (mi 5)
  let v := blakeG v 3 7 11 15 (mi 6) (mi 7)
  let v := blakeG v 0 5 10 15 (mi 8) (mi 9)
  let v := blakeG v 1 6 11 12 (mi 10) (mi 11)
  let v := blakeG v 2 7 8 13 (mi 12) (mi 13)
  blakeG v 3 4 9 14 (mi 14) (mi 15)

/-- BLAKE2b compression of one (zero-padded) 128-byte block. -/
def blakeCompress (h : List Nat) (block : List Nat) (t : Nat) (last : Bool) : List Nat :=
  let m := bytesToWordsLE (block ++ List.replicate (128 - block.length) 0)
  let v := h ++ blakeIV
  let v := v.set 12 (v.getD 12 0 ^^^ u64 t)
  let v := v.set 13 (v.getD 13 0 ^^^ (t >>> 64))
  let v := if last then v.set 14 (v.getD 14 0 ^^^ 0xffffffffffffffff) else v
  let v := (List.range 12).foldl (blakeRound m) v
  (List.range 8).map (fun i => h.getD i 0 ^^^ v.getD i 0 ^^^ v.getD (i + 8) 0)

/-- Process the message blocks of BLAKE2b, tracking consumed length. -/
def blakeGo (h : List Nat) (done : Nat) : List (List Nat) → List Nat
  | [] => h
  | [b] => blakeCompress h b (done + b.length) true
  | b :: rest => blakeGo (blakeCompress h b (done + 128) false) (done + 128) rest

/-- BLAKE2b-512 digest (64 bytes) of a byte message. -/
def blake2b (msg : List Nat) : List Nat :=
  let h0 := blakeIV.set 0 (blakeIV.getD 0 0 ^^^ 0x01010040)
  let blocks := if msg.isEmpty then [[]] else chunkList 128 msg
  (blakeGo h0 0 blocks).flatMap le64

/-! ## SHA3-256 (Python `hashlib.sha3_256`) -/

/-- Left rotation of a 64-bit word. -/
def rotl64 (r x : Nat) : Nat := u64 ((x <<< r) ||| (x >>> (64 - r)))

/-- Keccak round constants. -/
def keccakRC : List Nat :=
  [1, 32898, 9223372036854808714, 9223372039002292224,
   32907, 2147483649, 9223372039002292353, 9223372036854808585,
   138, 136, 2147516425, 2147483658,
   2147516555, 9223372036854775947, 9223372036854808713, 9223372036854808579,
   9223372036854808578, 9223372036854775936, 32778, 9223372039002259466,
   9223372039002292353, 9223372036854808704, 2147483649, 9223372039002292232]

/-- Keccak rotation offsets, indexed by lane x + 5 y. -/
def keccakRot : List Nat :=
  [0, 1, 62, 28, 27] ++ [36, 44, 6, 55, 20] ++ [3, 10, 43, 25, 39]
    ++ [41, 45, 15, 21, 8] ++ [18, 2, 61, 56, 14]

/-- Keccak theta step. -/
def keccakTheta (A : List Nat) : List Nat :=
  let C := (List.range 5).map (fun x =>
    A.getD x 0 ^^^ A.getD (x + 5) 0 ^^^ A.getD (x + 10) 0 ^^^
    A.getD (x + 15) 0 ^^^ A.getD (x + 20) 0)
  let D := (List.range 5).map (fun x =>
    C.getD ((x + 4) % 5) 0 ^^^ rotl64 1 (C.getD ((x + 1) % 5) 0))
  (List.range 25).map (fun i => A.getD i 0 ^^^ D.getD (i % 5) 0)

/-- Keccak rho and pi steps combined. -/
def keccakRhoPi (A : List Nat) : List Nat :=
  (List.range 25).foldl
    (fun B i =>
      let x := i % 5
      let y := i / 5
      B.set (y + 5 * ((2 * x + 3 * y) % 5)) (rotl64 (keccakRot.getD i 0) (A.getD i 0)))
    (List.replicate 25 0)

/-- Keccak chi step. -/
def keccakChi (B : List Nat) : List Nat :=
  (List.range 25).map (fun i =>
    let x := i % 5
    let y := i / 5
    B.getD i 0 ^^^
      ((B.getD ((x + 1) % 5 + 5 * y) 0 ^^^ 0xffffffffffffffff) &&&
        B.getD ((x + 2) % 5 + 5 * y) 0))

/-- Keccak-f[1600] permutation (24 rounds, with iota folded in). -/
def keccakF (A : List Nat) : List Nat :=
  (List.range 24).foldl
    (fun A r =>
      let A2 := keccakChi (keccakRhoPi (keccakTheta A))
      A2.set 0 (A2.getD 0 0 ^^^ keccakRC.getD r 0))
    A

/-- Absorb one 136-byte block into the Keccak state. -/
def keccakAbsorb (A : List Nat) (block : List Nat) : List Nat :=
  let lanes := bytesToWordsLE block
  keccakF ((List.range 25).map (fun i => A.getD i 0 ^^^ lanes.getD i 0))

/-- SHA3-256 digest (32 bytes) of a byte message. -/
def sha3_256 (msg : List Nat) : List Nat :=
  let padlen := 136 - msg.length % 136
  let pad := if padlen = 1 then [0x86]
             else 0x06 :: List.replicate (padlen - 2) 0 ++ [0x80]
  let A := (chunkList 136 (msg ++ pad)).foldl keccakAbsorb (List.replicate 25 0)
  (A.take 4).flatMap le64

/-! ## Supported hashes and HMAC (src/dc_sdk/lib/auth.py, Python `hmac`) -/

/-- Embeds the `SupportedHashes` enum of src/dc_sdk/lib/auth.py. -/
inductive SupportedHashes where
  | blake2b
  | sha256
  | sha3_256
  deriving DecidableEq, Repr

/-- Digest function selected by `get_hash_method` of src/dc_sdk/lib/auth.py
(the not-an-enum-member NotImplementedError branch is excluded by typing). -/
def hashDigest : SupportedHashes → List Nat → List Nat
  | .blake2b => blake2b
  | .sha256 => sha256
  | .sha3_256 => sha3_256

/-- Block size of each hash, as exposed to Python `hmac.new`. -/
def hashBlockSize : SupportedHashes → Nat
  | .blake2b => 128
  | .sha256 => 64
  | .sha3_256 => 136

/-- Embeds `hash_input` of src/dc_sdk/lib/auth.py. -/
def hash_input (hash_type : SupportedHashes) (input_data : PyData) : List Nat :=
  hashDigest hash_type (bytes_from_input input_data)

/-- Embeds `base64_encode_input` of src/dc_sdk/lib/auth.py. -/
def base64_encode_input (input_data : PyData) : String :=
  bytes_to_b64_str (bytes_from_input input_data)

/-- HMAC as computed by Python `hmac.new(key, msg, digestmod).digest()`. -/
def hmacDigest (h : SupportedHashes) (key msg : List Nat) : List Nat :=
  let bs := hashBlockSize h
  let k0 := if bs < key.length then hashDigest h key else key
  let k := k0 ++ List.replicate (bs - k0.length) 0
  hashDigest h
    ((k.map (fun b => b ^^^ 0x5c)) ++ hashDigest h ((k.map (fun b => b ^^^ 0x36)) ++ msg))

/-- Embeds `create_hmac` of src/dc_sdk/lib/auth.py. -/
def create_hmac (hash_type : SupportedHashes) (secret message : PyData) : List Nat :=
  hmacDigest hash_type (bytes_from_input secret) (bytes_from_input message)

/-- Embeds `compare_hmac` of src/dc_sdk/lib/auth.py; `none` is the
propagated `binascii.Error` of a failed base64 decode, and
`hmac.compare_digest` is equality of byte strings. -/
def compare_hmac (hash_type : SupportedHashes) (hmac_string : String)
    (secret message : PyData) : Option Bool :=
  (b64decode hmac_string).map (fun d => d == create_hmac hash_type secret message)

/-- Embeds Python `str.upper` (ASCII; the inputs of this SDK are ASCII). -/
def pyUpper (s : String) : String := ⟨s.data.map Char.toUpper⟩

/-- Embeds `get_hmac_message_string` of src/dc_sdk/lib/auth.py: the 6-line
canonical message, whose content hash is fixed to `SupportedHashes.sha256`. -/
def get_hmac_message_string (http_verb full_path dcid timestamp : String)
    (content_type : String) (content : PyData) : String :=
  pyUpper http_verb ++ "\n" ++ full_path ++ "\n" ++ dcid ++ "\n" ++ timestamp ++ "\n" ++
    content_type ++ "\n" ++ bytes_to_b64_str (hash_input SupportedHashes.sha256 content)

/-- Embeds `get_authorization` of src/dc_sdk/lib/auth.py: only the literal
algorithm string "SHA256" is accepted; anything else raises
`NotImplementedError` (after the message string is built). -/
def get_authorization (auth_key_id : String) (auth_key : PyData)
    (http_verb full_path dcid timestamp : String) (content_type : String)
    (content : PyData) (algorithm : String) : Except PyError String :=
  let version := "1"
  let message_string := get_hmac_message_string http_verb full_path dcid timestamp content_type content
  if algorithm = "SHA256" then
    .ok ("DC" ++ version ++ "-HMAC-" ++ algorithm ++ " " ++ auth_key_id ++ ":" ++
      bytes_to_b64_str (create_hmac SupportedHashes.sha256 auth_key (.pystr message_string)))
  else
    .error (.notImplementedError "Hash type is not supported")

/-! ## The Credentials object (src/dragonchain_sdk/credentials.py) -/

/-- State of a constructed `Credentials` object. -/
structure Credentials where
  dragonchain_id : String
  auth_key : Option String
  auth_key_id : Option String
  algorithm : String
  hash_method : SupportedHashes
  deriving DecidableEq, Repr

/-- Embeds `Credentials.get_hash_method`; `py36` models the
`sys.version_info >= (3, 6)` runtime test. -/
def Credentials.get_hash_method (py36 : Bool) (algorithm : String) :
    Except PyError SupportedHashes :=
  if algorithm = "SHA256" then .ok .sha256
  else if py36 && algorithm = "BLAKE2b512" then .ok .blake2b
  else if py36 && algorithm = "SHA3-256" then .ok .sha3_256
  else .error (.notImplementedError (algorithm ++ " is not a supported hash algorithm."))

/-- Embeds `Credentials.update_algorithm`. -/
def Credentials.update_algorithm (py36 : Bool) (c : Credentials) (algorithm : PyObj) :
    Except PyError Credentials :=
  match algorithm with
  | .str a => (Credentials.get_hash_method py36 a).map
      (fun h => { c with hash_method := h, algorithm := a })
  | .other => .error (.typeError "Parameter \x22algorithm\x22 must be of type str.")

/-- Embeds `Credentials.hash_input`: hashes with the credential's
configured `hash_method`. -/
def Credentials.hash_input (c : Credentials) (input_data : PyData) : List Nat :=
  hashDigest c.hash_method (bytes_from_input input_data)

/-- Embeds `Credentials.create_hmac`. -/
def Credentials.create_hmac (c : Credentials) (secret message : PyData) : List Nat :=
  hmacDigest c.hash_method (bytes_from_input secret) (bytes_from_input message)

/-- Embeds `Credentials.compare_hmac`. -/
def Credentials.compare_hmac (c : Credentials) (hmac_string : String)
    (secret message : PyData) : Option Bool :=
  (b64decode hmac_string).map (fun d => d == c.create_hmac secret message)

/-- Embeds `Credentials.hmac_message_string`: the 6-line canonical message;
its content hash uses the credential's configured `hash_method`. -/
def Credentials.hmac_message_string (c : Credentials)
    (http_verb path timestamp content_type : String) (content : PyData) : String :=
  pyUpper http_verb ++ "\n" ++ path ++ "\n" ++ c.dragonchain_id ++ "\n" ++ timestamp ++ "\n" ++
    content_type ++ "\n" ++ bytes_to_b64_str (c.hash_input content)

/-- Embeds `Credentials.get_authorization` (auth key unset is the dead
TypeError path of `bytes_from_input(None)`). -/
def Credentials.get_authorization (c : Credentials)
    (http_verb path timestamp content_type : String) (content : PyData) :
    Except PyError String :=
  match c.auth_key, c.auth_key_id with
  | some key, some kid =>
    .ok ("DC1-HMAC-" ++ c.algorithm ++ " " ++ kid ++ ":" ++
      bytes_to_b64_str (c.create_hmac (.pystr key)
        (.pystr (c.hmac_message_string http_verb path timestamp content_type content))))
  | _, _ => .error (.typeError "Parameter \x22input_data\x22 must be of type str or bytes.")

/-! ## Credential resolution (credentials.py and configuration.py) -/

/-- Process environment: the four environment variables the SDK reads. -/
structure Env where
  dragonchainId : Option String
  authKey : Option String
  authKeyId : Option String
  smartContractId : Option String
  deriving DecidableEq, Repr

/-- Configuration (INI) file contents: section and key to optional value;
an absent file reads as the function constant to `none`. -/
def Config := String → String → Option String

/-- Smart-contract secret files: file name in the secrets directory to
optional contents (absent file raises, modelled as `none`). -/
def SecretFS := String → Option String

/-- Python truthiness of `os.environ.get` results: `None` and the empty
string are falsy. -/
def pyTruthy : Option String → Bool
  | none => false
  | some s => !s.isEmpty

/-- Python `'sc-{}-secret-key'.format(x)` formatting of an optional
environment value (`None` formats as the string "None"). -/
def pyFormatOpt : Option String → String
  | none => "None"
  | some s => s

/-- Name of the smart-contract secret-key file. -/
def scSecretKeyFile (env : Env) : String :=
  "sc-" ++ pyFormatOpt env.smartContractId ++ "-secret-key"

/-- Name of the smart-contract auth-key-id file. -/
def scAuthKeyIdFile (env : Env) : String :=
  "sc-" ++ pyFormatOpt env.smartContractId ++ "-auth-key-id"

/-- Embeds `Credentials.get_dragonchain_id`: environment first, then the
`default` section of the config file, else `DragonchainIdentityNotFound`. -/
def Credentials.get_dragonchain_id (env : Env) (cfg : Config) : Except PyError String :=
  if pyTruthy env.dragonchainId then .ok (env.dragonchainId.getD "")
  else
    match cfg "default" "dragonchain_id" with
    | some s => .ok s
    | none => .error (.dragonchainIdentityNotFound "Could not locate dragonchain_id.")

/-- In-progress auth key pair fields of a resolving `Credentials` object. -/
structure KeyState where
  auth_key : Option String
  auth_key_id : Option String
  deriving DecidableEq, Repr

/-- Embeds `Credentials.get_environment_credentials`: assigns both fields
from the environment unconditionally and reports success by truthiness. -/
def Credentials.get_environment_credentials (env : Env) : KeyState × Bool :=
  (⟨env.authKey, env.authKeyId⟩, pyTruthy env.authKey && pyTruthy env.authKeyId)

/-- Embeds `Credentials.get_config_credentials` (the first assignment
sticks even when the second key is missing, as in the source). -/
def Credentials.get_config_credentials (cfg : Config) (dcid : String)
    (st : KeyState) : KeyState × Bool :=
  match cfg dcid "auth_key" with
  | none => (st, false)
  | some k =>
    match cfg dcid "auth_key_id" with
    | none => ({ st with auth_key := some k }, false)
    | some kid => (⟨some k, some kid⟩, true)

/-- Embeds `Credentials.get_smart_contract_credentials`: both files read
into locals before assignment, contents used verbatim. -/
def Credentials.get_smart_contract_credentials (env : Env) (fs : SecretFS)
    (st : KeyState) : KeyState × Bool :=
  match fs (scSecretKeyFile env) with
  | none => (st, false)
  | some k =>
    match fs (scAuthKeyIdFile env) with
    | none => (st, false)
    | some kid => (⟨some k, some kid⟩, true)

/-- Embeds `Credentials.get_credentials`: environment, then config file,
then smart-contract files, else raise. -/
def Credentials.get_credentials (env : Env) (cfg : Config) (fs : SecretFS)
    (dcid : String) : Except PyError KeyState :=
  let r1 := Credentials.get_environment_credentials env
  if r1.2 then .ok r1.1
  else
    let r2 := Credentials.get_config_credentials cfg dcid r1.1
    if r2.2 then .ok r2.1
    else
      let r3 := Credentials.get_smart_contract_credentials env fs r2.1
      if r3.2 then .ok r3.1
      else .error (.dragonchainIdentityNotFound "Unable to locate dragonchain authorization credentials")

/-- Embeds `Credentials.__init__` (the dragonchain_id, auth key and
algorithm phases in source order). -/
def Credentials.init (py36 : Bool) (env : Env) (cfg : Config) (fs : SecretFS)
    (dragonchain_id auth_key auth_key_id : Option PyObj) (algorithm : PyObj) :
    Except PyError Credentials := do
  let dcid ← match dragonchain_id with
    | none => Credentials.get_dragonchain_id env cfg
    | some (.str s) => pure s
    | some .other => throw (.typeError "Parameter \x22dragonchain_id\x22 must be of type str.")
  let ks ← if auth_key.isNone || auth_key_id.isNone then
      Credentials.get_credentials env cfg fs dcid
    else
      match auth_key, auth_key_id with
      | some (.str k), some (.str kid) => pure (⟨some k, some kid⟩ : KeyState)
      | _, _ => throw (.typeError "Parameter \x22auth_key\x22 and \x22auth_key_id\x22 must be of type str.")
  Credentials.update_algorithm py36 ⟨dcid, ks.auth_key, ks.auth_key_id, "SHA256", .sha256⟩ algorithm

/-- Embeds `_get_credentials_from_environment` of configuration.py
(`or ""` replaces missing values with the empty string). -/
def configCredentialsFromEnvironment (env : Env) : String × String :=
  (env.authKeyId.getD "", env.authKey.getD "")

/-- Embeds `_get_credentials_from_file` of configuration.py. -/
def configCredentialsFromFile (cfg : Config) (dcid : String) : String × String :=
  match cfg dcid "auth_key_id", cfg dcid "auth_key" with
  | some kid, some k => (kid, k)
  | _, _ => ("", "")

/-- Embeds `_get_credentials_as_smart_contract` of configuration.py:
raw file contents, used verbatim. -/
def configCredentialsAsSmartContract (env : Env) (fs : SecretFS) : String × String :=
  match fs (scSecretKeyFile env) with
  | none => ("", "")
  | some k =>
    match fs (scAuthKeyIdFile env) with
    | none => ("", "")
    | some kid => (kid, k)

/-- Embeds `get_credentials` of configuration.py: environment, then config
file, then smart-contract files, else raise. -/
def configGetCredentials (env : Env) (cfg : Config) (fs : SecretFS)
    (dcid : String) : Except PyError (String × String) :=
  let r1 := configCredentialsFromEnvironment env
  if !r1.2.isEmpty && !r1.1.isEmpty then .ok r1
  else
    let r2 := configCredentialsFromFile cfg dcid
    if !r2.2.isEmpty && !r2.1.isEmpty then .ok r2
    else
      let r3 := configCredentialsAsSmartContract env fs
      if !r3.2.isEmpty && !r3.1.isEmpty then .ok r3
      else .error (.dragonchainIdentityNotFound "Unable to locate dragonchain authorization credentials")

/-! ## Request headers (src/dc_sdk/lib/request.py) -/

/-- Embeds the `reserved_headers` list of src/dc_sdk/lib/request.py. -/
def reserved_headers : List String :=
  ["authorization", "timestamp", "dragonchain", "content-type", "content-length",
   "accept-encoding", "accept", "connection", "host", "user-agent"]

/-- Python dict assignment `d[k] = v` on an insertion-ordered
association list with unique keys. -/
def dictSet (d : List (String × String)) (k v : String) : List (String × String) :=
  if d.any (fun p => p.1 == k) then d.map (fun p => if p.1 == k then (k, v) else p)
  else d ++ [(k, v)]

/-- Embeds Python `str.lower` (ASCII; header names here are ASCII). -/
def pyLower (s : String) : String := ⟨s.data.map Char.toLower⟩

/-- Embeds `make_headers` of src/dc_sdk/lib/request.py over typed inputs
(the isinstance ValueError branches are excluded by typing): builds the
authoritative headers, then merges caller headers, silently skipping any
whose lower-cased name is reserved. -/
def make_headers (dcid timestamp : String) (content_type : Option String)
    (authorization : String) (headers : Option (List (String × String))) :
    List (String × String) :=
  let header_dict := [("dragonchain", dcid), ("timestamp", timestamp),
                      ("Authorization", authorization)]
  let header_dict := if pyTruthy content_type
    then dictSet header_dict "Content-Type" (content_type.getD "")
    else header_dict
  match headers with
  | none => header_dict
  | some hs => hs.foldl
      (fun d kv => if pyLower kv.1 ∈ reserved_headers then d else dictSet d kv.1 kv.2)
      header_dict

/-! ## Line splitting (to state properties about "the sixth line") -/

/-- Split a character list at newline characters (specification-side helper
for talking about individual lines of the canonical message). -/
def splitNl : List Char → List (List Char)
  | [] => [[]]
  | c :: cs =>
    if c = '\n' then [] :: splitNl cs
    else
      match splitNl cs with
      | h :: t => (c :: h) :: t
      | [] => [[c]]

/-! ## Lemmas: base64 -/

/-- Decoding inverts encoding on each alphabet character. -/
theorem b64CharVal_b64Char : ∀ n < 64, b64CharVal (b64Char n) = some n := by decide

/-- Padding characters decode to nothing. -/
theorem b64CharVal_pad : b64CharVal '=' = none := by decide

/-- Alphabet characters are never a newline. -/
theorem b64Char_ne_nl (n : Nat) : b64Char n ≠ '\n' := by
  by_cases h : n < 64
  · exact (by decide : ∀ m < 64, b64Char m ≠ '\n') n h
  · rw [b64Char, List.getD_eq_default]
    · decide
    · have hlen : b64Alphabet.length = 64 := by decide
      omega

/-- Base64 output characters are never a newline. -/
theorem nl_not_mem_b64encBytes : ∀ l : List Nat, '\n' ∉ b64encBytes l
  | [] => by simp [b64encBytes]
  | [a] => by
      intro h
      simp only [b64encBytes, List.mem_cons, List.not_mem_nil, or_false] at h
      rcases h with h | h | h | h
      · exact b64Char_ne_nl _ h.symm
      · exact b64Char_ne_nl _ h.symm
      · exact absurd h (by decide)
      · exact absurd h (by decide)
  | [a, b] => by
      intro h
      simp only [b64encBytes, List.mem_cons, List.not_mem_nil, or_false] at h
      rcases h with h | h | h | h
      · exact b64Char_ne_nl _ h.symm
      · exact b64Char_ne_nl _ h.symm
      · exact b64Char_ne_nl _ h.symm
      · exact absurd h (by decide)
  | a :: b :: c :: rest => by
      intro h
      simp only [b64encBytes, List.mem_cons] at h
      rcases h with h | h | h | h | h
      · exact b64Char_ne_nl _ h.symm
      · exact b64Char_ne_nl _ h.symm
      · exact b64Char_ne_nl _ h.symm
      · exact b64Char_ne_nl _ h.symm
      · exact nl_not_mem_b64encBytes rest h

/-- Round trip at the sextet level: decode of filtered encode. -/
theorem b64dec_enc : ∀ l : List Nat, (∀ b ∈ l, b < 256) →
    b64decSextets ((b64encBytes l).filterMap b64CharVal) = some l
  | [], _ => by simp [b64encBytes, b64decSextets]
  | [a], h => by
      have ha : a < 256 := h a (by simp)
      have e1 : b64CharVal (b64Char (a / 4)) = some (a / 4) :=
        b64CharVal_b64Char _ (by omega)
      have e2 : b64CharVal (b64Char (a % 4 * 16)) = some (a % 4 * 16) :=
        b64CharVal_b64Char _ (by omega)
      simp only [b64encBytes, List.filterMap_cons, e1, e2, b64CharVal_pad,
        List.filterMap_nil]
      show some [a / 4 * 4 + a % 4 * 16 / 16] = some [a]
      have h1 : a / 4 * 4 + a % 4 * 16 / 16 = a := by omega
      rw [h1]
  | [a, b], h => by
      have ha : a < 256 := h a (by simp)
      have hb : b < 256 := h b (by simp)
      have e1 : b64CharVal (b64Char (a / 4)) = some (a / 4) :=
        b64CharVal_b64Char _ (by omega)
      have e2 : b64CharVal (b64Char (a % 4 * 16 + b / 16)) = some (a % 4 * 16 + b / 16) :=
        b64CharVal_b64Char _ (by omega)
      have e3 : b64CharVal (b64Char (b % 16 * 4)) = some (b % 16 * 4) :=
        b64CharVal_b64Char _ (by omega)
      simp only [b64encBytes, List.filterMap_cons, e1, e2, e3, b64CharVal_pad,
        List.filterMap_nil]
      show some [a / 4 * 4 + (a % 4 * 16 + b / 16) / 16,
                 (a % 4 * 16 + b / 16) % 16 * 16 + b % 16 * 4 / 4] = some [a, b]
      have h1 : a / 4 * 4 + (a % 4 * 16 + b / 16) / 16 = a := by omega
      have h2 : (a % 4 * 16 + b / 16) % 16 * 16 + b % 16 * 4 / 4 = b := by omega
      rw [h1, h2]
  | a :: b :: c :: rest, h => by
      have ha : a < 256 := h a (by simp)
      have hb : b < 256 := h b (by simp)
      have hc : c < 256 := h c (by simp)
      have e1 : b64CharVal (b64Char (a / 4)) = some (a / 4) :=
        b64CharVal_b64Char _ (by omega)
      have e2 : b64CharVal (b64Char (a % 4 * 16 + b / 16)) = some (a % 4 * 16 + b / 16) :=
        b64CharVal_b64Char _ (by omega)
      have e3 : b64CharVal (b64Char (b % 16 * 4 + c / 64)) = some (b % 16 * 4 + c / 64) :=
        b64CharVal_b64Char _ (by omega)
      have e4 : b64CharVal (b64Char (c % 64)) = some (c % 64) :=
        b64CharVal_b64Char _ (by omega)
      have ih := b64dec_enc rest (fun x hx => h x (by simp [hx]))
      simp only [b64encBytes, List.filterMap_cons, e1, e2, e3, e4]
      have hdec : ∀ t : List Nat,
          b64decSextets (a / 4 :: (a % 4 * 16 + b / 16) :: (b % 16 * 4 + c / 64) :: c % 64 :: t)
          = (b64decSextets t).map (fun r =>
              (a / 4 * 4 + (a % 4 * 16 + b / 16) / 16) ::
              ((a % 4 * 16 + b / 16) % 16 * 16 + (b % 16 * 4 + c / 64) / 4) ::
              ((b % 16 * 4 + c / 64) % 4 * 64 + c % 64) :: r) := fun t => rfl
      rw [hdec, ih]
      have h1 : a / 4 * 4 + (a % 4 * 16 + b / 16) / 16 = a := by omega
      have h2 : (a % 4 * 16 + b / 16) % 16 * 16 + (b % 16 * 4 + c / 64) / 4 = b := by omega
      have h3 : (b % 16 * 4 + c / 64) % 4 * 64 + c % 64 = c := by omega
      simp [h1, h2, h3]

/-- Python `b64decode` inverts `bytes_to_b64_str` on genuine byte lists. -/
theorem b64decode_bytes_to_b64_str (l : List Nat) (h : ∀ b ∈ l, b < 256) :
    b64decode (bytes_to_b64_str l) = some l :=
  b64dec_enc l h

/-! ## Lemmas: digest bytes are bytes -/

/-- Big-endian word serialisation produces bytes. -/
theorem mem_be32_lt (n : Nat) : ∀ b ∈ be32 n, b < 256 := by
  intro b hb
  simp only [be32, List.mem_cons, List.not_mem_nil, or_false] at hb
  rcases hb with h | h | h | h <;> omega

/-- Little-endian word serialisation produces bytes. -/
theorem mem_le64_lt (n : Nat) : ∀ b ∈ le64 n, b < 256 := by
  intro b hb
  simp only [le64, List.mem_cons, List.not_mem_nil, or_false] at hb
  rcases hb with h | h | h | h | h | h | h | h <;> omega

/-- SHA-256 digests consist of bytes. -/
theorem mem_sha256_lt (m : List Nat) : ∀ b ∈ sha256 m, b < 256 := by
  intro b hb
  simp only [sha256, List.mem_flatMap] at hb
  obtain ⟨w, _, hw⟩ := hb
  exact mem_be32_lt w b hw

/-- BLAKE2b digests consist of bytes. -/
theorem mem_blake2b_lt (m : List Nat) : ∀ b ∈ blake2b m, b < 256 := by
  intro b hb
  simp only [blake2b, List.mem_flatMap] at hb
  obtain ⟨w, _, hw⟩ := hb
  exact mem_le64_lt w b hw

/-- SHA3-256 digests consist of bytes. -/
theorem mem_sha3_256_lt (m : List Nat) : ∀ b ∈ sha3_256 m, b < 256 := by
  intro b hb
  simp only [sha3_256, List.mem_flatMap] at hb
  obtain ⟨w, _, hw⟩ := hb
  exact mem_le64_lt w b hw

/-- Every supported hash produces bytes. -/
theorem mem_hashDigest_lt (h : SupportedHashes) (m : List Nat) :
    ∀ b ∈ hashDigest h m, b < 256 := by
  cases h
  · exact mem_blake2b_lt m
  · exact mem_sha256_lt m
  · exact mem_sha3_256_lt m

/-- HMAC outputs consist of bytes. -/
theorem mem_hmacDigest_lt (h : SupportedHashes) (key msg : List Nat) :
    ∀ b ∈ hmacDigest h key msg, b < 256 := by
  intro b hb
  simp only [hmacDigest] at hb
  exact mem_hashDigest_lt h _ b hb

/-- `create_hmac` outputs consist of bytes. -/
theorem mem_create_hmac_lt (h : SupportedHashes) (secret message : PyData) :
    ∀ b ∈ create_hmac h secret message, b < 256 :=
  mem_hmacDigest_lt h _ _

/-! ## Lemmas: list surgery -/

/-- Reading back the replaced position of a `set`. -/
theorem getD_set_self : ∀ (l : List Nat) (i b : Nat), i < l.length →
    (l.set i b).getD i 0 = b
  | _ :: _, 0, _, _ => rfl
  | _ :: t, i + 1, b, h => getD_set_self t i b (by simpa using h)
  | [], _, _, h => absurd h (by simp)

/-- Replacing a position with a different value changes the list. -/
theorem set_ne_of_ne (l : List Nat) (i b : Nat) (hi : i < l.length)
    (hb : b ≠ l.getD i 0) : l.set i b ≠ l := by
  intro heq
  have h1 : (l.set i b).getD i 0 = b := getD_set_self l i b hi
  rw [heq] at h1
  exact hb h1.symm

/-- Bytes of a `set`-modified byte list are still bytes. -/
theorem mem_set_lt (l : List Nat) (i b : Nat) (hl : ∀ x ∈ l, x < 256)
    (hb : b < 256) : ∀ x ∈ l.set i b, x < 256 := by
  intro x hx
  rcases List.mem_or_eq_of_mem_set hx with h | h
  · exact hl x h
  · omega

/-! ## Lemmas: line splitting -/

/-- Splitting never produces an empty list of lines. -/
theorem splitNl_ne_nil : ∀ l : List Char, splitNl l ≠ []
  | [] => by simp [splitNl]
  | c :: cs => by
      simp only [splitNl]
      split
      · simp
      · split <;> simp

/-- A newline-free character list is a single line. -/
theorem splitNl_no_nl : ∀ l : List Char, '\n' ∉ l → splitNl l = [l]
  | [], _ => rfl
  | c :: cs, h => by
      have hc : ¬(c = '\n') := fun hc => h (hc ▸ List.mem_cons_self c cs)
      have ih := splitNl_no_nl cs (fun hm => h (List.mem_cons_of_mem c hm))
      simp only [splitNl, if_neg hc, ih]

/-- Splitting after a newline-free first segment peels off one line. -/
theorem splitNl_append : ∀ (s : List Char) (r : List Char), '\n' ∉ s →
    splitNl (s ++ '\n' :: r) = s :: splitNl r
  | [], r, _ => by simp [splitNl]
  | c :: s2, r, h => by
      have hc : ¬(c = '\n') := fun hc => h (hc ▸ List.mem_cons_self c s2)
      have ih := splitNl_append s2 r (fun hm => h (List.mem_cons_of_mem c hm))
      simp only [List.cons_append, splitNl, if_neg hc]
      rw [show s2.append ('\n' :: r) = s2 ++ '\n' :: r from rfl, ih]

/-! ## Claim theorems -/

/-- C2: for every supported algorithm and every secret and message,
verifying the base64 encoding of a freshly computed HMAC against the same
inputs returns true, and flipping any single byte of the decoded candidate
before verification makes `compare_hmac` return false. -/
theorem claim2_hmac_roundtrip_and_flip (h : SupportedHashes) (secret message : PyData) :
    compare_hmac h (bytes_to_b64_str (create_hmac h secret message)) secret message = some true
    ∧ ∀ i b2, i < (create_hmac h secret message).length → b2 < 256 →
        b2 ≠ (create_hmac h secret message).getD i 0 →
        compare_hmac h (bytes_to_b64_str ((create_hmac h secret message).set i b2))
          secret message = some false := by
  constructor
  · simp only [compare_hmac]
    rw [b64decode_bytes_to_b64_str _ (mem_create_hmac_lt h secret message)]
    show some (create_hmac h secret message == create_hmac h secret message) = some true
    exact congrArg some (beq_self_eq_true _)
  · intro i b2 hi hb hne
    simp only [compare_hmac]
    rw [b64decode_bytes_to_b64_str _
      (mem_set_lt _ i b2 (mem_create_hmac_lt h secret message) hb)]
    show some ((create_hmac h secret message).set i b2 == create_hmac h secret message)
      = some false
    exact congrArg some (beq_eq_false_iff_ne.mpr (set_ne_of_ne _ i b2 hi hne))

/-- Witness for C2 at SHA-256 with secret "12345" and message "message",
flipping byte 0 of the digest to 0. -/
theorem claim2_witness :
    compare_hmac .sha256
      (bytes_to_b64_str (create_hmac .sha256 (.pystr "12345") (.pystr "message")))
      (.pystr "12345") (.pystr "message") = some true
    ∧ (0 < (create_hmac .sha256 (.pystr "12345") (.pystr "message")).length
        ∧ (0 : Nat) < 256
        ∧ (0 : Nat) ≠ (create_hmac .sha256 (.pystr "12345") (.pystr "message")).getD 0 0)
    ∧ compare_hmac .sha256
        (bytes_to_b64_str ((create_hmac .sha256 (.pystr "12345") (.pystr "message")).set 0 0))
        (.pystr "12345") (.pystr "message") = some false :=
  ⟨(claim2_hmac_roundtrip_and_flip .sha256 (.pystr "12345") (.pystr "message")).1,
   ⟨by decide, by decide, by decide⟩,
   (claim2_hmac_roundtrip_and_flip .sha256 (.pystr "12345") (.pystr "message")).2 0 0
     (by decide) (by decide) (by decide)⟩

/-- C1 (code bug exhibit): on the fixture inputs of
tests/unit/auth_tests.py, `get_authorization` returns the recorded SHA256
header, but raises `NotImplementedError` for "BLAKE2b512" and "SHA3-256"
instead of returning the other two recorded fixture headers. -/
theorem claim1_get_authorization_fixture :
    get_authorization "id" (.pystr "key") "get" "/chain/transaction" "a dragonchain id"
      "2017-06-10T20:40:05.191023Z" "" (.pystr "") "SHA256"
      = .ok "DC1-HMAC-SHA256 id:vQ0tR2yCHE9/U9aN3Cs2fXtDcgbSew0RQrPx313+nxU="
    ∧ get_authorization "id" (.pystr "key") "get" "/chain/transaction" "a dragonchain id"
      "2017-06-10T20:40:05.191023Z" "" (.pystr "") "BLAKE2b512"
      = .error (.notImplementedError "Hash type is not supported")
    ∧ get_authorization "id" (.pystr "key") "get" "/chain/transaction" "a dragonchain id"
      "2017-06-10T20:40:05.191023Z" "" (.pystr "") "SHA3-256"
      = .error (.notImplementedError "Hash type is not supported") := by
  refine ⟨by decide, by decide, by decide⟩

/-- Splitting a six-field newline-joined message yields the six fields. -/
theorem splitNl_message (f1 f2 f3 f4 f5 tail : List Char)
    (h1 : '\n' ∉ f1) (h2 : '\n' ∉ f2) (h3 : '\n' ∉ f3) (h4 : '\n' ∉ f4)
    (h5 : '\n' ∉ f5) (htail : '\n' ∉ tail) :
    splitNl (f1 ++ '\n' :: (f2 ++ '\n' :: (f3 ++ '\n' :: (f4 ++ '\n' :: (f5 ++ '\n' :: tail)))))
      = [f1, f2, f3, f4, f5, tail] := by
  rw [splitNl_append _ _ h1, splitNl_append _ _ h2, splitNl_append _ _ h3,
    splitNl_append _ _ h4, splitNl_append _ _ h5, splitNl_no_nl _ htail]

/-- C3 (amended): the sixth line of the canonical message is the base64 of
the content digest computed with the canonicalizer's own hash choice:
`get_hmac_message_string` (dc_sdk) always hashes the content with SHA-256,
while `Credentials.hmac_message_string` (dragonchain_sdk) hashes it with
the configured `hash_method`, so there it varies with the outer signing
algorithm and equals the SHA-256 digest only when that algorithm is SHA256. -/
theorem claim3_sixth_line (c : Credentials) (verb path ts ct : String) (content : PyData)
    (hv : '\n' ∉ (pyUpper verb).data) (hp : '\n' ∉ path.data)
    (hd : '\n' ∉ c.dragonchain_id.data) (ht : '\n' ∉ ts.data) (hc : '\n' ∉ ct.data) :
    (splitNl (c.hmac_message_string verb path ts ct content).data).getD 5 []
      = (bytes_to_b64_str (hashDigest c.hash_method (bytes_from_input content))).data
    ∧ (splitNl (get_hmac_message_string verb path c.dragonchain_id ts ct content).data).getD 5 []
      = (bytes_to_b64_str (sha256 (bytes_from_input content))).data := by
  have hb1 : '\n' ∉ (bytes_to_b64_str (hashDigest c.hash_method (bytes_from_input content))).data :=
    nl_not_mem_b64encBytes _
  have hb2 : '\n' ∉ (bytes_to_b64_str (sha256 (bytes_from_input content))).data :=
    nl_not_mem_b64encBytes _
  constructor
  · have hshape : (c.hmac_message_string verb path ts ct content).data
        = (pyUpper verb).data ++ '\n' :: (path.data ++ '\n' :: (c.dragonchain_id.data ++ '\n' ::
          (ts.data ++ '\n' :: (ct.data ++ '\n' ::
            (bytes_to_b64_str (hashDigest c.hash_method (bytes_from_input content))).data)))) := by
      simp [Credentials.hmac_message_string, Credentials.hash_input, String.data_append,
        List.append_assoc]
    rw [hshape, splitNl_message _ _ _ _ _ _ hv hp hd ht hc hb1]
    rfl
  · have hshape : (get_hmac_message_string verb path c.dragonchain_id ts ct content).data
        = (pyUpper verb).data ++ '\n' :: (path.data ++ '\n' :: (c.dragonchain_id.data ++ '\n' ::
          (ts.data ++ '\n' :: (ct.data ++ '\n' ::
            (bytes_to_b64_str (sha256 (bytes_from_input content))).data)))) := by
      simp [get_hmac_message_string, hash_input, hashDigest, String.data_append,
        List.append_assoc]
    rw [hshape, splitNl_message _ _ _ _ _ _ hv hp hd ht hc hb2]
    rfl

/-- Counterexample to C3 as stated: for a credentials object configured
with BLAKE2b512, the sixth line of the canonical message is not the base64
SHA-256 digest of the (empty) content. -/
theorem claim3_counterexample :
    (splitNl ((Credentials.hmac_message_string
        ⟨"TestID", some "TestKey", some "TestKeyId", "BLAKE2b512", .blake2b⟩
        "get" "/chain/transaction" "2017-06-10T20:40:05.191023Z" "" (.pystr "")).data)).getD 5 []
      ≠ (bytes_to_b64_str (sha256 (bytes_from_input (.pystr "")))).data := by decide

/-- Witness for C3 (amended) at the BLAKE2b512 credentials of the test
fixtures with empty content. -/
theorem claim3_witness :
    ('\n' ∉ (pyUpper "get").data ∧ '\n' ∉ "/chain/transaction".data
      ∧ '\n' ∉ "TestID".data ∧ '\n' ∉ "2017-06-10T20:40:05.191023Z".data
      ∧ '\n' ∉ "".data)
    ∧ ((splitNl ((Credentials.hmac_message_string
          ⟨"TestID", some "TestKey", some "TestKeyId", "BLAKE2b512", .blake2b⟩
          "get" "/chain/transaction" "2017-06-10T20:40:05.191023Z" "" (.pystr "")).data)).getD 5 []
        = (bytes_to_b64_str (hashDigest SupportedHashes.blake2b
            (bytes_from_input (.pystr "")))).data
      ∧ (splitNl ((get_hmac_message_string "get" "/chain/transaction" "TestID"
          "2017-06-10T20:40:05.191023Z" "" (.pystr "")).data)).getD 5 []
        = (bytes_to_b64_str (sha256 (bytes_from_input (.pystr "")))).data) :=
  ⟨⟨by decide, by decide, by decide, by decide, by decide⟩,
   claim3_sixth_line ⟨"TestID", some "TestKey", some "TestKeyId", "BLAKE2b512", .blake2b⟩
     "get" "/chain/transaction" "2017-06-10T20:40:05.191023Z" "" (.pystr "")
     (by decide) (by decide) (by decide) (by decide) (by decide)⟩

/-- C4: every algorithm name outside {SHA256, BLAKE2b512, SHA3-256} makes
hash-method lookup, algorithm update and dc_sdk header building fail with
the "not supported" error, on any runtime version; none falls back to a
default algorithm. -/
theorem claim4_unsupported_algorithm (py36 : Bool) (alg : String)
    (h : alg ∉ (["SHA256", "BLAKE2b512", "SHA3-256"] : List String)) :
    Credentials.get_hash_method py36 alg
      = .error (.notImplementedError (alg ++ " is not a supported hash algorithm."))
    ∧ (∀ c : Credentials, Credentials.update_algorithm py36 c (.str alg)
        = .error (.notImplementedError (alg ++ " is not a supported hash algorithm.")))
    ∧ ∀ (kid : String) (key : PyData) (verb path dcid ts ct : String) (content : PyData),
        get_authorization kid key verb path dcid ts ct content alg
          = .error (.notImplementedError "Hash type is not supported") := by
  simp only [List.mem_cons, List.not_mem_nil, or_false, not_or] at h
  obtain ⟨h1, h2, h3⟩ := h
  refine ⟨?_, ?_, ?_⟩
  · simp [Credentials.get_hash_method, h1, h2, h3]
  · intro c
    simp [Credentials.update_algorithm, Credentials.get_hash_method, h1, h2, h3, Except.map]
  · intro kid key verb path dcid ts ct content
    simp [get_authorization, h1]

/-- Witness for C4 at the unsupported name "MD5". -/
theorem claim4_witness :
    ("MD5" ∉ (["SHA256", "BLAKE2b512", "SHA3-256"] : List String))
    ∧ Credentials.get_hash_method true "MD5"
        = .error (.notImplementedError ("MD5" ++ " is not a supported hash algorithm."))
    ∧ Credentials.update_algorithm true
        ⟨"TestID", some "TestKey", some "TestKeyId", "SHA256", .sha256⟩ (.str "MD5")
        = .error (.notImplementedError ("MD5" ++ " is not a supported hash algorithm."))
    ∧ get_authorization "id" (.pystr "key") "get" "/chain/transaction" "a dragonchain id"
        "2017-06-10T20:40:05.191023Z" "" (.pystr "") "MD5"
        = .error (.notImplementedError "Hash type is not supported") :=
  have h := claim4_unsupported_algorithm true "MD5" (by decide)
  ⟨by decide, h.1,
   h.2.1 ⟨"TestID", some "TestKey", some "TestKeyId", "SHA256", .sha256⟩,
   h.2.2 "id" (.pystr "key") "get" "/chain/transaction" "a dragonchain id"
     "2017-06-10T20:40:05.191023Z" "" (.pystr "")⟩

/-- Updating the algorithm of a credentials object never changes its
chain id. -/
theorem update_algorithm_ok_dragonchain_id (py36 : Bool) (c0 : Credentials) (a : PyObj)
    (c : Credentials) (h : Credentials.update_algorithm py36 c0 a = .ok c) :
    c.dragonchain_id = c0.dragonchain_id := by
  cases a with
  | other => simp [Credentials.update_algorithm] at h
  | str s =>
    simp only [Credentials.update_algorithm] at h
    cases hg : Credentials.get_hash_method py36 s with
    | error e => rw [hg] at h; simp [Except.map] at h
    | ok hm =>
      rw [hg] at h
      simp only [Except.map] at h
      cases h
      rfl

/-- Inverting a successful `Except` bind. -/
theorem except_bind_ok {e a b : Type} (x : Except e a) (f : a → Except e b) (v : b)
    (h : (x >>= f) = .ok v) : ∃ w, x = .ok w ∧ f w = .ok v := by
  cases x with
  | error er => simp [Bind.bind, Except.bind] at h
  | ok w => exact (Exists.intro w (And.intro rfl (by simpa [Bind.bind, Except.bind] using h)))

/-- C5: a non-None string dragonchain_id constructor argument becomes the
object's chain id verbatim, and neither the DRAGONCHAIN_ID environment
variable nor the config file's default dragonchain_id entry influences
construction at all. -/
theorem claim5_explicit_id_wins (py36 : Bool) (env : Env) (cfg cfg2 : Config)
    (fs : SecretFS) (s : String) (ak aki : Option PyObj) (alg : PyObj)
    (idv : Option String)
    (hcfg : ∀ sec key, ¬(sec = "default" ∧ key = "dragonchain_id") →
      cfg2 sec key = cfg sec key) :
    Credentials.init py36 { env with dragonchainId := idv } cfg2 fs
      (some (.str s)) ak aki alg
      = Credentials.init py36 env cfg fs (some (.str s)) ak aki alg
    ∧ ∀ c, Credentials.init py36 env cfg fs (some (.str s)) ak aki alg = .ok c →
        c.dragonchain_id = s := by
  have hgc : Credentials.get_credentials { env with dragonchainId := idv } cfg2 fs s
      = Credentials.get_credentials env cfg fs s := by
    simp only [Credentials.get_credentials, Credentials.get_environment_credentials,
      Credentials.get_config_credentials, Credentials.get_smart_contract_credentials]
    rw [hcfg s "auth_key" (by simp), hcfg s "auth_key_id" (by simp)]
    rfl
  constructor
  · simp only [Credentials.init, pure_bind]
    rw [hgc]
  · intro c h
    simp only [Credentials.init, pure_bind] at h
    split at h
    · obtain ⟨ks, hks⟩ := except_bind_ok _ _ _ h
      exact update_algorithm_ok_dragonchain_id py36 _ alg c hks.2
    · split at h
      · exact update_algorithm_ok_dragonchain_id py36 _ alg c h
      · exfalso
        simp [throw, throwThe, MonadExceptOf.throw, Bind.bind, Except.bind] at h

/-- Witness for C5: explicit id "TestID" with keys from the environment;
replacing the identity environment variable and the default-section
config entry changes nothing. -/
theorem claim5_witness :
    Credentials.init true ⟨some "WrongID", some "EnvKey", some "EnvKeyId", none⟩
      (fun sec key => if sec = "default" ∧ key = "dragonchain_id"
        then some "FileID" else none)
      (fun _ => none) (some (.str "TestID")) none none (.str "SHA256")
      = Credentials.init true ⟨none, some "EnvKey", some "EnvKeyId", none⟩
        (fun _ _ => none) (fun _ => none) (some (.str "TestID")) none none (.str "SHA256")
    ∧ ∀ c, Credentials.init true ⟨none, some "EnvKey", some "EnvKeyId", none⟩
        (fun _ _ => none) (fun _ => none) (some (.str "TestID")) none none (.str "SHA256")
        = .ok c → c.dragonchain_id = "TestID" :=
  claim5_explicit_id_wins true ⟨none, some "EnvKey", some "EnvKeyId", none⟩
    (fun _ _ => none)
    (fun sec key => if sec = "default" ∧ key = "dragonchain_id" then some "FileID" else none)
    (fun _ => none) "TestID" none none (.str "SHA256") (some "WrongID")
    (fun _ _ h => if_neg h)

/-- C6 (amended): supplying exactly one of auth_key / auth_key_id behaves
exactly like supplying neither: the constructor ignores the supplied half
and resolves the pair from the fallback chain; no type error is raised. -/
theorem claim6_single_key_falls_back (py36 : Bool) (env : Env) (cfg : Config)
    (fs : SecretFS) (sid k : String) (alg : PyObj) :
    Credentials.init py36 env cfg fs (some (.str sid)) (some (.str k)) none alg
      = Credentials.init py36 env cfg fs (some (.str sid)) none none alg
    ∧ Credentials.init py36 env cfg fs (some (.str sid)) none (some (.str k)) alg
      = Credentials.init py36 env cfg fs (some (.str sid)) none none alg :=
  ⟨rfl, rfl⟩

/-- Counterexample to C6 as stated: construction with auth_key supplied
and auth_key_id omitted succeeds (keys taken from the environment, the
supplied key ignored) instead of failing with a type/validation error. -/
theorem claim6_counterexample :
    Credentials.init true ⟨none, some "EnvKey", some "EnvKeyId", none⟩ (fun _ _ => none)
      (fun _ => none) (some (.str "TestID")) (some (.str "SuppliedKey")) none (.str "SHA256")
      = .ok ⟨"TestID", some "EnvKey", some "EnvKeyId", "SHA256", .sha256⟩ := by decide

/-- C7 (code bug exhibit): with every credential source exhausted, both
`Credentials.get_credentials` and configuration's `get_credentials` raise
`DragonchainIdentityNotFound` — the same exception class as the missing
chain id case — not the `AuthorizationNotFound` the claim (and the
repository's own tests) require. -/
theorem claim7_exhausted_resolution :
    Credentials.get_credentials ⟨none, none, none, none⟩ (fun _ _ => none)
      (fun _ => none) "TestID"
      = .error (.dragonchainIdentityNotFound
          "Unable to locate dragonchain authorization credentials")
    ∧ configGetCredentials ⟨none, none, none, none⟩ (fun _ _ => none)
      (fun _ => none) "TestID"
      = .error (.dragonchainIdentityNotFound
          "Unable to locate dragonchain authorization credentials")
    ∧ Credentials.get_dragonchain_id ⟨none, none, none, none⟩ (fun _ _ => none)
      = .error (.dragonchainIdentityNotFound "Could not locate dragonchain_id.") := by
  refine ⟨by decide, by decide, by decide⟩

/-- Assigning a fresh key into a python dict appends it. -/
theorem dictSet_append (d : List (String × String)) (k v : String)
    (h : d.any (fun p => p.1 == k) = false) : dictSet d k v = d ++ [(k, v)] := by
  simp [dictSet, h]

/-- Merging caller headers appends exactly the non-reserved entries, when
none collides with the accumulator and the caller keys are distinct. -/
theorem fold_merge : ∀ (hs : List (String × String)) (d : List (String × String)),
    (∀ kv ∈ hs, pyLower kv.1 ∉ reserved_headers → d.any (fun p => p.1 == kv.1) = false) →
    (hs.map Prod.fst).Nodup →
    hs.foldl (fun d kv => if pyLower kv.1 ∈ reserved_headers then d else dictSet d kv.1 kv.2) d
      = d ++ hs.filter (fun kv => pyLower kv.1 ∉ reserved_headers)
  | [], d, _, _ => by simp
  | kv :: rest, d, h, hnd => by
      have hndr : (rest.map Prod.fst).Nodup := by
        simpa using (List.nodup_cons.mp (by simpa using hnd)).2
      by_cases hres : pyLower kv.1 ∈ reserved_headers
      · have ih := fold_merge rest d
          (fun kv2 hm hnr => h kv2 (List.mem_cons_of_mem kv hm) hnr) hndr
        simp only [List.foldl_cons, if_pos hres, ih, List.filter_cons,
          decide_not]
        have : (decide (pyLower kv.1 ∉ reserved_headers)) = false := by
          simp [hres]
        simp [hres]
      · have hset : dictSet d kv.1 kv.2 = d ++ [(kv.1, kv.2)] :=
          dictSet_append d kv.1 kv.2 (h kv (List.mem_cons_self kv rest) hres)
        have hfst : kv.1 ∉ rest.map Prod.fst :=
          (List.nodup_cons.mp (by simpa using hnd)).1
        have ih := fold_merge rest (d ++ [(kv.1, kv.2)])
          (fun kv2 hm hnr => by
            have hne : kv.1 ≠ kv2.1 := by
              intro he
              exact hfst (he ▸ List.mem_map_of_mem Prod.fst hm)
            have h0 : d.any (fun p => p.1 == kv2.1) = false :=
              h kv2 (List.mem_cons_of_mem kv hm) hnr
            simp only [List.any_append, h0, Bool.false_or, List.any_cons, List.any_nil,
              Bool.or_false]
            exact beq_eq_false_iff_ne.mpr hne) hndr
        simp only [List.foldl_cons, if_neg hres, hset, ih, List.filter_cons]
        have hdec : (decide (pyLower kv.1 ∉ reserved_headers)) = true := by simp [hres]
        rw [hdec]
        simp

/-- Reduction of the authoritative header dictionary to an explicit list. -/
theorem make_headers_none_eq (dcid ts : String) (ct : Option String) (auth : String) :
    make_headers dcid ts ct auth none
      = if pyTruthy ct
        then [("dragonchain", dcid), ("timestamp", ts), ("Authorization", auth),
              ("Content-Type", ct.getD "")]
        else [("dragonchain", dcid), ("timestamp", ts), ("Authorization", auth)] := by
  have hC1 : (("dragonchain" : String) == "Content-Type") = false := by decide
  have hC2 : (("timestamp" : String) == "Content-Type") = false := by decide
  have hC3 : (("Authorization" : String) == "Content-Type") = false := by decide
  by_cases h : pyTruthy ct = true
  · simp [make_headers, h, dictSet, hC1, hC2, hC3]
  · simp [make_headers, h]

/-- The authoritative header names are all reserved (lower-cased). -/
theorem make_headers_base_reserved (dcid ts : String) (ct : Option String)
    (auth : String) :
    ∀ p ∈ make_headers dcid ts ct auth none, pyLower p.1 ∈ reserved_headers := by
  intro p hp
  rw [make_headers_none_eq] at hp
  by_cases h : pyTruthy ct = true
  · rw [if_pos h] at hp
    simp only [List.mem_cons, List.not_mem_nil, or_false] at hp
    rcases hp with hq | hq | hq | hq
    · rw [hq]; show pyLower "dragonchain" ∈ reserved_headers; decide
    · rw [hq]; show pyLower "timestamp" ∈ reserved_headers; decide
    · rw [hq]; show pyLower "Authorization" ∈ reserved_headers; decide
    · rw [hq]; show pyLower "Content-Type" ∈ reserved_headers; decide
  · rw [if_neg h] at hp
    simp only [List.mem_cons, List.not_mem_nil, or_false] at hp
    rcases hp with hq | hq | hq
    · rw [hq]; show pyLower "dragonchain" ∈ reserved_headers; decide
    · rw [hq]; show pyLower "timestamp" ∈ reserved_headers; decide
    · rw [hq]; show pyLower "Authorization" ∈ reserved_headers; decide

/-- A key found in the left part of an association list is found in the
concatenation. -/
theorem lookup_append_left (l1 l2 : List (String × String)) (k v : String)
    (h : l1.lookup k = some v) : (l1 ++ l2).lookup k = some v := by
  induction l1 with
  | nil => simp [List.lookup] at h
  | cons p t ih =>
    obtain ⟨a, b⟩ := p
    rw [List.cons_append]
    simp only [List.lookup] at h ⊢
    cases hbeq : (k == a) with
    | true => simp only [hbeq] at h ⊢; exact h
    | false => simp only [hbeq] at h ⊢; exact ih h

/-- C8: caller headers whose lower-cased name is reserved (authorization,
timestamp, the chain-id header "dragonchain", and the rest of the reserved
list) are dropped by `make_headers`; the authoritative values survive
unchanged, no exception is raised, and all other caller headers are merged
in verbatim. -/
theorem claim8_reserved_headers_protected (dcid ts : String) (ct : Option String)
    (auth : String) (hs : List (String × String)) (hnd : (hs.map Prod.fst).Nodup) :
    make_headers dcid ts ct auth (some hs)
      = make_headers dcid ts ct auth none
        ++ hs.filter (fun kv => pyLower kv.1 ∉ reserved_headers)
    ∧ (make_headers dcid ts ct auth (some hs)).lookup "Authorization" = some auth
    ∧ (make_headers dcid ts ct auth (some hs)).lookup "timestamp" = some ts
    ∧ (make_headers dcid ts ct auth (some hs)).lookup "dragonchain" = some dcid := by
  have hbase := make_headers_base_reserved dcid ts ct auth
  have hmain : make_headers dcid ts ct auth (some hs)
      = make_headers dcid ts ct auth none
        ++ hs.filter (fun kv => pyLower kv.1 ∉ reserved_headers) := by
    have hcond : ∀ kv ∈ hs, pyLower kv.1 ∉ reserved_headers →
        (make_headers dcid ts ct auth none).any (fun p => p.1 == kv.1) = false := by
      intro kv _ hnr
      rw [List.any_eq_false]
      intro p hp
      intro hbeq
      exact hnr ((eq_of_beq hbeq) ▸ hbase p hp)
    have hrepr : make_headers dcid ts ct auth (some hs)
        = hs.foldl (fun d kv => if pyLower kv.1 ∈ reserved_headers then d
            else dictSet d kv.1 kv.2) (make_headers dcid ts ct auth none) := rfl
    rw [hrepr, fold_merge hs (make_headers dcid ts ct auth none) hcond hnd]
  have hA1 : (("Authorization" : String) == "dragonchain") = false := by decide
  have hA2 : (("Authorization" : String) == "timestamp") = false := by decide
  have hA3 : (("Authorization" : String) == "Authorization") = true := by decide
  have hT1 : (("timestamp" : String) == "dragonchain") = false := by decide
  have hT2 : (("timestamp" : String) == "timestamp") = true := by decide
  have hD1 : (("dragonchain" : String) == "dragonchain") = true := by decide
  refine ⟨hmain, ?_, ?_, ?_⟩ <;> rw [hmain]
  · refine lookup_append_left _ _ _ _ ?_
    rw [make_headers_none_eq]
    by_cases h : pyTruthy ct = true
    · rw [if_pos h]; simp [List.lookup, hA1, hA2, hA3]
    · rw [if_neg h]; simp [List.lookup, hA1, hA2, hA3]
  · refine lookup_append_left _ _ _ _ ?_
    rw [make_headers_none_eq]
    by_cases h : pyTruthy ct = true
    · rw [if_pos h]; simp [List.lookup, hT1, hT2]
    · rw [if_neg h]; simp [List.lookup, hT1, hT2]
  · refine lookup_append_left _ _ _ _ ?_
    rw [make_headers_none_eq]
    by_cases h : pyTruthy ct = true
    · rw [if_pos h]; simp [List.lookup, hD1]
    · rw [if_neg h]; simp [List.lookup, hD1]

/-- Witness for C8: caller headers "AUTHORIZATION" (reserved, dropped) and
"X-Custom" (merged), with a content type present. -/
theorem claim8_witness :
    ((([("AUTHORIZATION", "evil"), ("X-Custom", "1")] : List (String × String)).map
        Prod.fst).Nodup)
    ∧ make_headers "TestID" "ts1" (some "application/json") "authval"
        (some [("AUTHORIZATION", "evil"), ("X-Custom", "1")])
      = make_headers "TestID" "ts1" (some "application/json") "authval" none
        ++ ([("AUTHORIZATION", "evil"), ("X-Custom", "1")] : List (String × String)).filter
            (fun kv => pyLower kv.1 ∉ reserved_headers)
    ∧ (make_headers "TestID" "ts1" (some "application/json") "authval"
        (some [("AUTHORIZATION", "evil"), ("X-Custom", "1")])).lookup "Authorization"
      = some "authval"
    ∧ (make_headers "TestID" "ts1" (some "application/json") "authval"
        (some [("AUTHORIZATION", "evil"), ("X-Custom", "1")])).lookup "timestamp"
      = some "ts1"
    ∧ (make_headers "TestID" "ts1" (some "application/json") "authval"
        (some [("AUTHORIZATION", "evil"), ("X-Custom", "1")])).lookup "dragonchain"
      = some "TestID" :=
  have h := claim8_reserved_headers_protected "TestID" "ts1" (some "application/json")
    "authval" [("AUTHORIZATION", "evil"), ("X-Custom", "1")] (by decide)
  ⟨by decide, h.1, h.2.1, h.2.2.1, h.2.2.2⟩

/-- C9 (amended): smart-contract credential resolution returns the exact
raw file contents of the two secret files, with no whitespace stripping,
in both credentials.py and configuration.py. -/
theorem claim9_sc_credentials_raw (env : Env) (fs : SecretFS) (st : KeyState)
    (a b : String) (hA : fs (scSecretKeyFile env) = some a)
    (hB : fs (scAuthKeyIdFile env) = some b) :
    Credentials.get_smart_contract_credentials env fs st = (⟨some a, some b⟩, true)
    ∧ configCredentialsAsSmartContract env fs = (b, a) := by
  constructor
  · simp [Credentials.get_smart_contract_credentials, hA, hB]
  · simp [configCredentialsAsSmartContract, hA, hB]

/-- Counterexample to C9 as stated: secret files whose contents carry
surrounding whitespace resolve to values that keep that whitespace. -/
theorem claim9_counterexample :
    configCredentialsAsSmartContract ⟨none, none, none, some "MyContract"⟩
      (fun n => if n = "sc-MyContract-secret-key" then some " TestKey \n"
                else if n = "sc-MyContract-auth-key-id" then some " TestKeyId \n" else none)
      = (" TestKeyId \n", " TestKey \n")
    ∧ ((" TestKeyId \n", " TestKey \n") : String × String) ≠ ("TestKeyId", "TestKey") := by
  refine ⟨by decide, by decide⟩

/-- Witness for C9 (amended) at whitespace-laden file contents. -/
theorem claim9_witness :
    ((fun n => if n = "sc-MyContract-secret-key" then some " TestKey \n"
        else if n = "sc-MyContract-auth-key-id" then some " TestKeyId \n"
        else none : SecretFS)
      (scSecretKeyFile ⟨none, none, none, some "MyContract"⟩) = some " TestKey \n")
    ∧ ((fun n => if n = "sc-MyContract-secret-key" then some " TestKey \n"
        else if n = "sc-MyContract-auth-key-id" then some " TestKeyId \n"
        else none : SecretFS)
      (scAuthKeyIdFile ⟨none, none, none, some "MyContract"⟩) = some " TestKeyId \n")
    ∧ Credentials.get_smart_contract_credentials ⟨none, none, none, some "MyContract"⟩
        (fun n => if n = "sc-MyContract-secret-key" then some " TestKey \n"
          else if n = "sc-MyContract-auth-key-id" then some " TestKeyId \n" else none)
        ⟨none, none⟩
        = (⟨some " TestKey \n", some " TestKeyId \n"⟩, true)
    ∧ configCredentialsAsSmartContract ⟨none, none, none, some "MyContract"⟩
        (fun n => if n = "sc-MyContract-secret-key" then some " TestKey \n"
          else if n = "sc-MyContract-auth-key-id" then some " TestKeyId \n" else none)
        = (" TestKeyId \n", " TestKey \n") :=
  have h := claim9_sc_credentials_raw ⟨none, none, none, some "MyContract"⟩
    (fun n => if n = "sc-MyContract-secret-key" then some " TestKey \n"
      else if n = "sc-MyContract-auth-key-id" then some " TestKeyId \n" else none)
    ⟨none, none⟩ " TestKey \n" " TestKeyId \n" (by decide) (by decide)
  ⟨by decide, by decide, h.1, h.2⟩

/-- C10: an AUTH_KEY or AUTH_KEY_ID environment variable set to the empty
string is treated as absent during resolution (the environment source
fails by truthiness, and configuration.py resolution is unchanged by
erasing such a variable), whereas explicit constructor arguments are
tested only against None, so empty-string auth_key and auth_key_id count
as supplied and are used as-is, against any environment. -/
theorem claim10_empty_string_policy (env : Env) (cfg : Config) (fs : SecretFS)
    (py36 : Bool) (s k kid dcid : String) :
    (env.authKey = some "" → (Credentials.get_environment_credentials env).2 = false)
    ∧ (env.authKeyId = some "" → (Credentials.get_environment_credentials env).2 = false)
    ∧ (env.authKey = some "" →
        configGetCredentials env cfg fs dcid
          = configGetCredentials { env with authKey := none } cfg fs dcid)
    ∧ Credentials.init py36 env cfg fs (some (.str s)) (some (.str k)) (some (.str kid))
        (.str "SHA256")
      = .ok ⟨s, some k, some kid, "SHA256", .sha256⟩ := by
  have he : pyTruthy (some "") = false := by decide
  refine ⟨?_, ?_, ?_, ?_⟩
  · intro h
    simp [Credentials.get_environment_credentials, h, he]
  · intro h
    simp [Credentials.get_environment_credentials, h, he]
  · intro h
    simp only [configGetCredentials, configCredentialsFromEnvironment, h]
    rfl
  · rfl

/-- Witness for C10: both environment variables set to the empty string,
and both constructor arguments supplied as empty strings. -/
theorem claim10_witness :
    (Credentials.get_environment_credentials ⟨none, some "", some "", none⟩).2 = false
    ∧ configGetCredentials ⟨none, some "", some "", none⟩ (fun _ _ => none)
        (fun _ => none) "TestID"
      = configGetCredentials ⟨none, none, some "", none⟩ (fun _ _ => none)
        (fun _ => none) "TestID"
    ∧ Credentials.init true ⟨none, some "", some "", none⟩ (fun _ _ => none)
        (fun _ => none) (some (.str "TestID")) (some (.str "")) (some (.str ""))
        (.str "SHA256")
      = .ok ⟨"TestID", some "", some "", "SHA256", .sha256⟩ :=
  have h := claim10_empty_string_policy ⟨none, some "", some "", none⟩ (fun _ _ => none)
    (fun _ => none) true "TestID" "" "" "TestID"
  ⟨h.1 rfl, h.2.2.1 rfl, h.2.2.2⟩
